import Mathlib

/-!
Shallow embedding of the svc-gateway hotel-booking edge gateway
(src/svc-gateway/src/routes.rs, main.rs, dto.rs).

Each downstream HTTP call is modelled by a `Fetch` value supplied by an
environment record: either a transport failure (`down`) or an upstream
response carrying a status code and the result of decoding its body
(`up`).  Handlers are pure functions from the request plus such an
environment to an `Except Nat` result (the `Nat` is the HTTP status
returned to the caller), and — where a claim needs it — a list of the
downstream side-effecting calls issued, in program order.

Dates are modelled as integers (day numbers); `i32`/`i64` arithmetic is
modelled on `Int` with explicit two-complement wrapping (`wrap32`) where
the Rust code casts to `i32`, and `Int.tdiv` for the toward-zero rounding
of Rust integer division.
-/

/-- Loyalty tier, mirroring `LoyaltyStatus` in dto.rs. -/
inductive LoyaltyStatus where
  | bronze
  | silver
  | gold
deriving DecidableEq

/-- Payment status, mirroring `PaymentStatus` in dto.rs. -/
inductive PaymentStatus where
  | paid
  | canceled
deriving DecidableEq

/-- An upstream HTTP response: its status code and the outcome of decoding
its body as JSON of the expected shape (`none` = decode failure). -/
structure HttpResp (α : Type) where
  status : Nat
  body : Option α
deriving DecidableEq

/-- Outcome of one downstream call: transport failure (`reqwest` send
error) or an upstream response. -/
inductive Fetch (α : Type) where
  | down
  | up (r : HttpResp α)
deriving DecidableEq

/-- `resp.error_for_status()` in reqwest: a client or server error status
(400..=599) is turned into an error carrying that status. -/
def isErrorStatus (s : Nat) : Bool :=
  400 ≤ s && s ≤ 599

/-- The common call pattern `send().await.map_err(503)?.error_for_status()
.map_err(status)?.json().await.map_err(500)?`: transport failure ↦ 503,
non-2xx status ↦ that status, decode failure ↦ 500. -/
def fetchJson {α : Type} (f : Fetch α) : Except Nat α :=
  match f with
  | .down => .error 503
  | .up r =>
    if isErrorStatus r.status then .error r.status
    else
      match r.body with
      | none => .error 500
      | some a => .ok a

/-- The call pattern with `error_for_status` but no body decoding
(the loyalty PUT and the DELETE calls). -/
def fetchStatus (f : Fetch Unit) : Except Nat Unit :=
  match f with
  | .down => .error 503
  | .up r => if isErrorStatus r.status then .error r.status else .ok ()

/-- `try_from_json` (dto.rs): best-effort decode that ignores the status
code entirely and yields `none` on transport or decode failure. -/
def tryFromJson {α : Type} (f : Fetch α) : Option α :=
  match f with
  | .down => none
  | .up r => r.body

/-- Two-complement wrap into the `i32` range, modelling Rust `as i32`
casts and wrapping `i32` arithmetic. -/
def wrap32 (z : Int) : Int :=
  (z + 2 ^ 31) % 2 ^ 32 - 2 ^ 31

/-- `HotelResponse` (dto.rs), restricted to the fields the saga reads. -/
structure HotelResponse where
  hotelUid : Nat
  price : Int
deriving DecidableEq

/-- `LoyaltyInfoResponse` (dto.rs). -/
structure LoyaltyInfoResponse where
  status : LoyaltyStatus
  discount : Int
  reservationCount : Int
deriving DecidableEq

/-- `PaymentInfo` (dto.rs). -/
structure PaymentInfo where
  status : PaymentStatus
  price : Int
deriving DecidableEq

/-- `PaymentInfoServiceResponse` (dto.rs): the payment service's record,
including its backend-assigned identifier. -/
structure PaymentInfoServiceResponse where
  paymentUid : Nat
  status : PaymentStatus
  price : Int
deriving DecidableEq

/-- `ReservationServiceResponse` (dto.rs): one reservation as returned by
the reservation service. -/
structure ReservationServiceResponse where
  reservationUid : Nat
  hotelUid : Nat
  startDate : Int
  endDate : Int
  status : PaymentStatus
  paymentUid : Nat
deriving DecidableEq

/-- `PostReservationServiceResponse` (dto.rs). -/
structure PostReservationServiceResponse where
  reservationUid : Nat
  hotelUid : Nat
  paymentUid : Nat
  startDate : Int
  endDate : Int
  status : PaymentStatus
deriving DecidableEq

/-- `CreateReservationRequest` (dto.rs): the client's saga input. -/
structure CreateReservationRequest where
  hotelUid : Nat
  startDate : Int
  endDate : Int
deriving DecidableEq

/-- `CreateReservationResponse` (dto.rs): the saga's success payload. -/
structure CreateReservationResponse where
  reservationUid : Nat
  hotelUid : Nat
  startDate : Int
  endDate : Int
  discount : Int
  status : PaymentStatus
  payment : PaymentInfo
deriving DecidableEq

/-- `ReservationResponse` (dto.rs): client-facing reservation view with
optional payment enrichment. -/
structure ReservationResponse where
  reservationUid : Nat
  hotelUid : Nat
  startDate : Int
  endDate : Int
  status : PaymentStatus
  payment : Option PaymentInfo
deriving DecidableEq

/-- `ReservationResponse::from_svc_responses` (dto.rs). -/
def fromSvcResponses (r : ReservationServiceResponse) (p : Option PaymentInfo) :
    ReservationResponse :=
  { reservationUid := r.reservationUid
    hotelUid := r.hotelUid
    startDate := r.startDate
    endDate := r.endDate
    status := r.status
    payment := p }

/-- Downstream side-effecting calls issued by `post_reservation`, in
program order. -/
inductive Ev where
  | getHotel
  | getLoyalty
  | createPayment (price : Int)
  | putLoyalty
  | createReservation (hotelUid paymentUid : Nat)
  | deletePayment (paymentUid : Nat)
deriving DecidableEq

/-- The downstream world one `post_reservation` run interacts with. -/
structure SagaEnv where
  hotel : Fetch HotelResponse
  loyalty : Fetch LoyaltyInfoResponse
  payment : Fetch PaymentInfoServiceResponse
  loyaltyPut : Fetch Unit
  reservationPost : Fetch PostReservationServiceResponse
  paymentDelete : Fetch PaymentInfoServiceResponse
deriving DecidableEq

/-- Step 3 of the saga (routes.rs lines 280-308): the loyalty GET.
404 substitutes the default account (Bronze, 5, 1); 200 decodes the body
(500 on decode failure); any other status is 500; transport failure 503. -/
def sagaLoyalty (f : Fetch LoyaltyInfoResponse) : Except Nat LoyaltyInfoResponse :=
  match f with
  | .down => .error 503
  | .up r =>
    if r.status = 404 then .ok ⟨.bronze, 5, 1⟩
    else if r.status = 200 then
      match r.body with
      | none => .error 500
      | some l => .ok l
    else .error 500

/-- `cost - (cost * discount / 100)` on `i32` (routes.rs line 310):
wrapping multiply, toward-zero division, wrapping subtraction. -/
def applyDiscount (cost disc : Int) : Int :=
  wrap32 (cost - Int.tdiv (wrap32 (cost * disc)) 100)

/-- `((end_date - start_date).num_days() * price as i64) as i32`
(routes.rs line 277). -/
def rawCost (req : CreateReservationRequest) (price : Int) : Int :=
  wrap32 ((req.endDate - req.startDate) * price)

/-- `post_reservation` (routes.rs lines 240-446): the reservation-creation
saga.  Returns the handler result (error = HTTP status) and the list of
downstream calls issued, in program order. -/
def post_reservation (req : CreateReservationRequest) (env : SagaEnv) :
    Except Nat CreateReservationResponse × List Ev :=
  match fetchJson env.hotel with
  | .error s => (.error s, [.getHotel])
  | .ok hotel =>
    let cost := rawCost req hotel.price
    match sagaLoyalty env.loyalty with
    | .error s => (.error s, [.getHotel, .getLoyalty])
    | .ok loyalty =>
      let cost := applyDiscount cost loyalty.discount
      match fetchJson env.payment with
      | .error s => (.error s, [.getHotel, .getLoyalty, .createPayment cost])
      | .ok payment =>
        match fetchStatus env.loyaltyPut with
        | .ok _ =>
          match fetchJson env.reservationPost with
          | .error s =>
            (.error s,
             [.getHotel, .getLoyalty, .createPayment cost, .putLoyalty,
              .createReservation req.hotelUid payment.paymentUid])
          | .ok reservation =>
            (.ok { reservationUid := reservation.reservationUid
                   hotelUid := reservation.hotelUid
                   startDate := reservation.startDate
                   endDate := reservation.endDate
                   discount := loyalty.discount
                   status := reservation.status
                   payment := { status := payment.status, price := payment.price } },
             [.getHotel, .getLoyalty, .createPayment cost, .putLoyalty,
              .createReservation req.hotelUid payment.paymentUid])
        | .error _ =>
          let evs := [.getHotel, .getLoyalty, .createPayment cost, .putLoyalty,
                      .deletePayment payment.paymentUid]
          match fetchJson env.paymentDelete with
          | .error s => (.error s, evs)
          | .ok _ => (.error 503, evs)

/-- A message on the retry queue (main.rs `Message`): the absolute
deadline.  The retryable operation itself is modelled by the worker
trace, below. -/
structure Message where
  timeout : Int
deriving DecidableEq

/-- The downstream world one `delete_reservation` run interacts with. -/
structure CancelEnv where
  fetchRes : Fetch ReservationServiceResponse
  delRes : Fetch Unit
  delPay : Fetch Unit
  delLoyalty : Fetch Unit
deriving DecidableEq

/-- `delete_reservation` (routes.rs lines 529-639): fetch the reservation,
delete it, delete its payment, delete the loyalty record; each of the
first three failures aborts with its status; a loyalty-delete failure is
absorbed — the handler enqueues a retry message with deadline `now + 10`
seconds and still returns 204. -/
def delete_reservation (env : CancelEnv) (now : Int) :
    Except Nat (Nat × Option Message) :=
  match fetchJson env.fetchRes with
  | .error s => .error s
  | .ok _ =>
    match fetchStatus env.delRes with
    | .error s => .error s
    | .ok _ =>
      match fetchStatus env.delPay with
      | .error s => .error s
      | .ok _ =>
        match fetchStatus env.delLoyalty with
        | .ok _ => .ok (204, none)
        | .error _ => .ok (204, some ⟨now + 10⟩)

/-- One loop iteration of the retry worker, as observed from outside:
the wall-clock time at which the operation is invoked, whether it
succeeded, and the value `Utc::now()` read at the subsequent deadline
check (only reached when the attempt failed). -/
structure WorkerStep where
  attemptTime : Int
  attemptOk : Bool
  checkTime : Int
deriving DecidableEq

/-- `queue_sender` (main.rs lines 109-128), inner loop for one dequeued
message: invoke the operation; on success stop; on failure sleep, then
stop when the deadline check sees `timeout < now`, otherwise loop.
Returns the times at which the operation was invoked. -/
def runWorker (timeout : Int) : List WorkerStep → List Int
  | [] => []
  | s :: rest =>
    if s.attemptOk then [s.attemptTime]
    else if timeout < s.checkTime then [s.attemptTime]
    else s.attemptTime :: runWorker timeout rest

/-- `get_reservations` (routes.rs lines 169-223): list fetch (transport ↦
503, decode failure ↦ 500, no status check), then per-item best-effort
payment enrichment keyed by the item's payment identifier, results joined
in original list order. -/
def get_reservations (hasUser : Bool) (listFetch : Fetch (List ReservationServiceResponse))
    (enrich : Nat → Fetch PaymentInfo) : Except Nat (List ReservationResponse) :=
  if !hasUser then .error 400
  else
    match listFetch with
    | .down => .error 503
    | .up r =>
      match r.body with
      | none => .error 500
      | some items =>
        .ok (items.map (fun el => fromSvcResponses el (tryFromJson (enrich el.paymentUid))))

/-- `get_reservation` (routes.rs lines 464-512): single-reservation fetch.
Note: no `error_for_status` before decoding — the body is decoded whatever
the status, and a decode failure yields 500. -/
def get_reservation (hasUser : Bool) (resFetch : Fetch ReservationServiceResponse)
    (payFetch : Fetch PaymentInfo) : Except Nat ReservationResponse :=
  if !hasUser then .error 400
  else
    match resFetch with
    | .down => .error 503
    | .up r =>
      match r.body with
      | none => .error 500
      | some reservation => .ok (fromSvcResponses reservation (tryFromJson payFetch))

deriving instance DecidableEq for Except

/-- i32 wrapping is the identity on values already in the i32 range. -/
theorem wrap32_eq_self (z : Int) (h1 : -(2 ^ 31) ≤ z) (h2 : z < 2 ^ 31) :
    wrap32 z = z := by
  unfold wrap32
  omega

/-- `applyDiscount` agrees with the plain integer formula
`cost - cost * disc / 100` whenever no i32 overflow occurs. -/
theorem applyDiscount_eq (cost disc : Int)
    (h1 : -(2 ^ 31) ≤ cost * disc) (h2 : cost * disc < 2 ^ 31)
    (h3 : -(2 ^ 31) ≤ cost - Int.tdiv (cost * disc) 100)
    (h4 : cost - Int.tdiv (cost * disc) 100 < 2 ^ 31) :
    applyDiscount cost disc = cost - Int.tdiv (cost * disc) 100 := by
  unfold applyDiscount
  rw [wrap32_eq_self _ h1 h2, wrap32_eq_self _ h3 h4]

/-- A fully healthy downstream environment for the saga, used by the
concrete witnesses: hotel 11 at nightly price 100, loyalty Gold with 10%
discount, payment record 42. -/
def envAllOk : SagaEnv :=
  { hotel := .up ⟨200, some ⟨11, 100⟩⟩
    loyalty := .up ⟨200, some ⟨.gold, 10, 25⟩⟩
    payment := .up ⟨200, some ⟨42, .paid, 270⟩⟩
    loyaltyPut := .up ⟨200, some ()⟩
    reservationPost := .up ⟨200, some ⟨7, 11, 42, 0, 3, .paid⟩⟩
    paymentDelete := .up ⟨200, some ⟨42, .paid, 270⟩⟩ }

/-- The saga request used by the concrete witnesses: 3 nights at hotel 11. -/
def reqNights3 : CreateReservationRequest := ⟨11, 0, 3⟩

/-- Like `envAllOk` but the loyalty PUT is unreachable; the compensating
payment delete succeeds. -/
def envPutDown : SagaEnv := { envAllOk with loyaltyPut := .down }

/-- Like `envAllOk` but the loyalty PUT is unreachable and the
compensating payment delete itself answers 404. -/
def envPutDownDel404 : SagaEnv :=
  { envAllOk with loyaltyPut := .down, paymentDelete := .up ⟨404, none⟩ }

/-- Claim C1: in every saga run that reaches the loyalty-update step and
fails there, a delete is issued against exactly the payment record created
in that run, no reservation-create call is ever issued, and the handler
returns an error. -/
theorem saga_loyalty_failure_compensates (req : CreateReservationRequest)
    (env : SagaEnv) (hotel : HotelResponse) (loyalty : LoyaltyInfoResponse)
    (payment : PaymentInfoServiceResponse) (s : Nat)
    (h1 : fetchJson env.hotel = .ok hotel)
    (h2 : sagaLoyalty env.loyalty = .ok loyalty)
    (h3 : fetchJson env.payment = .ok payment)
    (h4 : fetchStatus env.loyaltyPut = .error s) :
    (∃ e, (post_reservation req env).1 = .error e) ∧
    Ev.deletePayment payment.paymentUid ∈ (post_reservation req env).2 ∧
    ∀ hu pu, Ev.createReservation hu pu ∉ (post_reservation req env).2 := by
  simp only [post_reservation, h1, h2, h3, h4]
  cases hd : fetchJson env.paymentDelete <;> simp

/-- Witness for C1 at a concrete failing run. -/
theorem saga_loyalty_failure_compensates_witness :
    (fetchJson envPutDown.hotel = .ok ⟨11, 100⟩ ∧
     sagaLoyalty envPutDown.loyalty = .ok ⟨.gold, 10, 25⟩ ∧
     fetchJson envPutDown.payment = .ok ⟨42, .paid, 270⟩ ∧
     fetchStatus envPutDown.loyaltyPut = .error 503) ∧
    ((∃ e, (post_reservation reqNights3 envPutDown).1 = .error e) ∧
     Ev.deletePayment 42 ∈ (post_reservation reqNights3 envPutDown).2 ∧
     ∀ hu pu, Ev.createReservation hu pu ∉ (post_reservation reqNights3 envPutDown).2) :=
  ⟨⟨by decide, by decide, by decide, by decide⟩,
   saga_loyalty_failure_compensates reqNights3 envPutDown ⟨11, 100⟩ ⟨.gold, 10, 25⟩
     ⟨42, .paid, 270⟩ 503 (by decide) (by decide) (by decide) (by decide)⟩

/-- Counterexample to claim C2: a saga run whose loyalty-update step fails
and whose compensating payment delete answers 404 returns the 404 to the
caller, not service-unavailable 503. -/
theorem saga_compensation_error_not_503 :
    fetchStatus envPutDownDel404.loyaltyPut = .error 503 ∧
    (post_reservation reqNights3 envPutDownDel404).1 = .error 404 ∧
    (post_reservation reqNights3 envPutDownDel404).1 ≠ .error 503 := by
  decide

/-- Claim C2 as amended: in every saga run whose loyalty-update step
fails, the caller sees 503 when the compensating payment delete fully
succeeds; when the compensating delete itself fails, its own error
(503 transport, the upstream status, or 500 decode) is what the caller
sees instead. -/
theorem saga_compensation_error_propagates (req : CreateReservationRequest)
    (env : SagaEnv) (hotel : HotelResponse) (loyalty : LoyaltyInfoResponse)
    (payment : PaymentInfoServiceResponse) (s : Nat)
    (h1 : fetchJson env.hotel = .ok hotel)
    (h2 : sagaLoyalty env.loyalty = .ok loyalty)
    (h3 : fetchJson env.payment = .ok payment)
    (h4 : fetchStatus env.loyaltyPut = .error s) :
    (∀ e, fetchJson env.paymentDelete = .error e →
      (post_reservation req env).1 = .error e) ∧
    (∀ b, fetchJson env.paymentDelete = .ok b →
      (post_reservation req env).1 = .error 503) := by
  simp only [post_reservation, h1, h2, h3, h4]
  constructor
  · intro e he
    rw [he]
  · intro b hb
    rw [hb]

/-- Witness for the amended C2 on both branches: with a 404 from the
compensating delete the caller sees 404; with a successful compensating
delete the caller sees 503. -/
theorem saga_compensation_error_propagates_witness :
    (post_reservation reqNights3 envPutDownDel404).1 = .error 404 ∧
    (post_reservation reqNights3 envPutDown).1 = .error 503 :=
  ⟨(saga_compensation_error_propagates reqNights3 envPutDownDel404 ⟨11, 100⟩
      ⟨.gold, 10, 25⟩ ⟨42, .paid, 270⟩ 503 (by decide) (by decide) (by decide)
      (by decide)).1 404 (by decide),
   (saga_compensation_error_propagates reqNights3 envPutDown ⟨11, 100⟩
      ⟨.gold, 10, 25⟩ ⟨42, .paid, 270⟩ 503 (by decide) (by decide) (by decide)
      (by decide)).2 ⟨42, .paid, 270⟩ (by decide)⟩

/-- Claim C3: every successful saga run issued its downstream calls in
exactly the program order hotel, loyalty read, payment create, loyalty
update, reservation create — so the payment create completes before the
reservation create is issued — and the reservation-create request carries
exactly the payment identifier returned by the payment service in that
run. -/
theorem saga_success_payment_before_reservation (req : CreateReservationRequest)
    (env : SagaEnv) (resp : CreateReservationResponse)
    (h : (post_reservation req env).1 = .ok resp) :
    ∃ payment c, fetchJson env.payment = .ok payment ∧
      (post_reservation req env).2 =
        [.getHotel, .getLoyalty, .createPayment c, .putLoyalty,
         .createReservation req.hotelUid payment.paymentUid] := by
  cases h1 : fetchJson env.hotel with
  | error s => simp [post_reservation, h1] at h
  | ok hotel =>
    cases h2 : sagaLoyalty env.loyalty with
    | error s => simp [post_reservation, h1, h2] at h
    | ok loyalty =>
      cases h3 : fetchJson env.payment with
      | error s => simp [post_reservation, h1, h2, h3] at h
      | ok payment =>
        cases h4 : fetchStatus env.loyaltyPut with
        | error s =>
          cases h5 : fetchJson env.paymentDelete with
          | error s2 => simp [post_reservation, h1, h2, h3, h4, h5] at h
          | ok b => simp [post_reservation, h1, h2, h3, h4, h5] at h
        | ok u =>
          refine ⟨payment, applyDiscount (rawCost req hotel.price) loyalty.discount,
            rfl, ?_⟩
          cases h5 : fetchJson env.reservationPost <;>
            simp [post_reservation, h1, h2, h3, h4, h5]

/-- Witness for C3 at a concrete successful run. -/
theorem saga_success_payment_before_reservation_witness :
    ((post_reservation reqNights3 envAllOk).1 =
      .ok ⟨7, 11, 0, 3, 10, .paid, ⟨.paid, 270⟩⟩) ∧
    (∃ payment c, fetchJson envAllOk.payment = .ok payment ∧
      (post_reservation reqNights3 envAllOk).2 =
        [.getHotel, .getLoyalty, .createPayment c, .putLoyalty,
         .createReservation reqNights3.hotelUid payment.paymentUid]) :=
  ⟨by decide,
   saga_success_payment_before_reservation reqNights3 envAllOk
     ⟨7, 11, 0, 3, 10, .paid, ⟨.paid, 270⟩⟩ (by decide)⟩

/-- Like `envAllOk` but the loyalty read answers 404 (no account yet). -/
def envLoyalty404 : SagaEnv := { envAllOk with loyalty := .up ⟨404, none⟩ }

/-- Claim C4: a saga run whose loyalty read answers "not found" behaves
exactly as if the loyalty service had returned the default account
(Bronze, 5% discount, reservation count 1), and — whenever the hotel step
succeeded — it proceeds to the payment-creation step using the 5%
discount rather than aborting. -/
theorem saga_loyalty_not_found_default (req : CreateReservationRequest)
    (env : SagaEnv) (b : Option LoyaltyInfoResponse)
    (h : env.loyalty = .up ⟨404, b⟩) :
    post_reservation req env =
      post_reservation req { env with loyalty := .up ⟨200, some ⟨.bronze, 5, 1⟩⟩ } ∧
    ∀ hotel, fetchJson env.hotel = .ok hotel →
      Ev.createPayment (applyDiscount (rawCost req hotel.price) 5) ∈
        (post_reservation req env).2 := by
  have e1 : sagaLoyalty env.loyalty = .ok ⟨.bronze, 5, 1⟩ := by
    rw [h]; rfl
  constructor
  · simp only [post_reservation, e1]
    rfl
  · intro hotel hh
    simp only [post_reservation, hh, e1]
    cases h3 : fetchJson env.payment with
    | error s => simp
    | ok payment =>
      cases h4 : fetchStatus env.loyaltyPut with
      | error s =>
        cases h5 : fetchJson env.paymentDelete <;> simp
      | ok u =>
        cases h5 : fetchJson env.reservationPost <;> simp

/-- Witness for C4 at a concrete run with a 404 loyalty read: the saga
completes successfully with discount 5 and the payment is created with
the 5%-discounted cost 285. -/
theorem saga_loyalty_not_found_default_witness :
    (envLoyalty404.loyalty = .up ⟨404, none⟩) ∧
    (post_reservation reqNights3 envLoyalty404 =
      post_reservation reqNights3
        { envLoyalty404 with loyalty := .up ⟨200, some ⟨.bronze, 5, 1⟩⟩ } ∧
     ∀ hotel, fetchJson envLoyalty404.hotel = .ok hotel →
       Ev.createPayment (applyDiscount (rawCost reqNights3 hotel.price) 5) ∈
         (post_reservation reqNights3 envLoyalty404).2) :=
  ⟨by decide,
   saga_loyalty_not_found_default reqNights3 envLoyalty404 none (by decide)⟩

/-- Claim C5: in every saga run that reaches the payment step, the price
sent to the payment service is `cost - cost * discount / 100` with
toward-zero integer division, where `cost` is nights times nightly price
— provided none of the i32 casts overflows. -/
theorem saga_cost_formula (req : CreateReservationRequest) (env : SagaEnv)
    (hotel : HotelResponse) (l : LoyaltyInfoResponse)
    (h1 : fetchJson env.hotel = .ok hotel)
    (h2 : env.loyalty = .up ⟨200, some l⟩)
    (hb1 : -(2 ^ 31) ≤ (req.endDate - req.startDate) * hotel.price)
    (hb2 : (req.endDate - req.startDate) * hotel.price < 2 ^ 31)
    (hb3 : -(2 ^ 31) ≤ (req.endDate - req.startDate) * hotel.price * l.discount)
    (hb4 : (req.endDate - req.startDate) * hotel.price * l.discount < 2 ^ 31)
    (hb5 : -(2 ^ 31) ≤ (req.endDate - req.startDate) * hotel.price -
      Int.tdiv ((req.endDate - req.startDate) * hotel.price * l.discount) 100)
    (hb6 : (req.endDate - req.startDate) * hotel.price -
      Int.tdiv ((req.endDate - req.startDate) * hotel.price * l.discount) 100 < 2 ^ 31) :
    Ev.createPayment ((req.endDate - req.startDate) * hotel.price -
      Int.tdiv ((req.endDate - req.startDate) * hotel.price * l.discount) 100) ∈
      (post_reservation req env).2 := by
  have e1 : sagaLoyalty env.loyalty = .ok l := by
    rw [h2]; rfl
  have e2 : applyDiscount (rawCost req hotel.price) l.discount =
      (req.endDate - req.startDate) * hotel.price -
        Int.tdiv ((req.endDate - req.startDate) * hotel.price * l.discount) 100 := by
    unfold rawCost
    rw [wrap32_eq_self _ hb1 hb2]
    exact applyDiscount_eq _ _ hb3 hb4 hb5 hb6
  simp only [post_reservation, h1, e1, e2]
  cases h3 : fetchJson env.payment with
  | error s => simp
  | ok payment =>
    cases h4 : fetchStatus env.loyaltyPut with
    | error s => cases h5 : fetchJson env.paymentDelete <;> simp
    | ok u => cases h5 : fetchJson env.reservationPost <;> simp

/-- Witness for C5 on the spec's concrete example: price 100, 3 nights,
10% discount give a payment created at price 270. -/
theorem saga_cost_formula_witness :
    (fetchJson envAllOk.hotel = .ok ⟨11, 100⟩ ∧
     envAllOk.loyalty = .up ⟨200, some ⟨.gold, 10, 25⟩⟩ ∧
     ((reqNights3.endDate - reqNights3.startDate) * (100 : Int) -
       Int.tdiv ((reqNights3.endDate - reqNights3.startDate) * 100 * 10) 100 = 270)) ∧
    Ev.createPayment 270 ∈ (post_reservation reqNights3 envAllOk).2 := by
  refine ⟨⟨by decide, by decide, by decide⟩, ?_⟩
  have h := saga_cost_formula reqNights3 envAllOk ⟨11, 100⟩ ⟨.gold, 10, 25⟩
    (by decide) (by decide) (by decide) (by decide) (by decide) (by decide)
    (by decide) (by decide)
  simpa using h

/-- Claim C9: the coordinator never validates date ordering — even when
the end date precedes the start date, every saga run that passes the
hotel and loyalty reads still issues the payment-creation call, its price
computed from the raw (negative) day difference. -/
theorem saga_no_date_validation (req : CreateReservationRequest) (env : SagaEnv)
    (hotel : HotelResponse) (l : LoyaltyInfoResponse)
    (h1 : fetchJson env.hotel = .ok hotel)
    (h2 : sagaLoyalty env.loyalty = .ok l)
    (hd : req.endDate < req.startDate) :
    Ev.createPayment (applyDiscount (rawCost req hotel.price) l.discount) ∈
      (post_reservation req env).2 := by
  simp only [post_reservation, h1, h2]
  cases h3 : fetchJson env.payment with
  | error s => simp
  | ok payment =>
    cases h4 : fetchStatus env.loyaltyPut with
    | error s => cases h5 : fetchJson env.paymentDelete <;> simp
    | ok u => cases h5 : fetchJson env.reservationPost <;> simp

/-- A saga request whose end date precedes its start date by 3 days. -/
def reqBackwards : CreateReservationRequest := ⟨11, 5, 2⟩

/-- Witness for C9: with start 5 and end 2 the payment create is still
issued, at the raw negative cost -300 minus its 10% discount -30, i.e.
-270. -/
theorem saga_no_date_validation_witness :
    (fetchJson envAllOk.hotel = .ok ⟨11, 100⟩ ∧
     sagaLoyalty envAllOk.loyalty = .ok ⟨.gold, 10, 25⟩ ∧
     reqBackwards.endDate < reqBackwards.startDate ∧
     applyDiscount (rawCost reqBackwards 100) 10 = -270) ∧
    Ev.createPayment (applyDiscount (rawCost reqBackwards 100) 10) ∈
      (post_reservation reqBackwards envAllOk).2 :=
  ⟨⟨by decide, by decide, by decide, by decide⟩,
   saga_no_date_validation reqBackwards envAllOk ⟨11, 100⟩ ⟨.gold, 10, 25⟩
     (by decide) (by decide) (by decide)⟩

/-- A cancellation environment where reservation fetch and both deletes
succeed but the loyalty delete is unreachable. -/
def envCancelLoyaltyDown : CancelEnv :=
  { fetchRes := .up ⟨200, some ⟨7, 11, 0, 3, .paid, 42⟩⟩
    delRes := .up ⟨204, some ()⟩
    delPay := .up ⟨204, some ()⟩
    delLoyalty := .down }

/-- Counterexample to claim C6: a cancellation run whose loyalty delete
fails does return 204 and enqueue a deferred action with deadline
`enqueue time + 10`, but the retry worker's first (and here only) attempt
on it is unconditional upon dequeue and in this trace occurs at time 15,
after the deadline 10 — so the action is not attempted before the
deadline. -/
theorem cancel_retry_before_deadline_cex :
    delete_reservation envCancelLoyaltyDown 0 = .ok (204, some ⟨10⟩) ∧
    runWorker 10 [⟨15, true, 0⟩] = [15] ∧
    ¬(15 : Int) ≤ 10 := by
  decide

/-- Claim C6 as amended: in every cancellation run whose reservation and
payment deletes succeed and whose loyalty delete fails, the handler
returns 204 and enqueues a deferred action with deadline 10 seconds from
enqueue time, and the retry worker attempts the action at least once upon
dequeuing it — though that first attempt is unconditional and may fall
after the deadline. -/
theorem cancel_loyalty_failure_deferred (env : CancelEnv) (now : Int)
    (r : ReservationServiceResponse) (s : Nat)
    (h1 : fetchJson env.fetchRes = .ok r)
    (h2 : fetchStatus env.delRes = .ok ())
    (h3 : fetchStatus env.delPay = .ok ())
    (h4 : fetchStatus env.delLoyalty = .error s) :
    delete_reservation env now = .ok (204, some ⟨now + 10⟩) ∧
    ∀ st rest, 1 ≤ (runWorker (now + 10) (st :: rest)).length := by
  constructor
  · simp only [delete_reservation, h1, h2, h3, h4]
  · intro st rest
    unfold runWorker
    split
    · simp
    · split
      · simp
      · simp

/-- Witness for the amended C6 at a concrete failing cancellation. -/
theorem cancel_loyalty_failure_deferred_witness :
    (fetchJson envCancelLoyaltyDown.fetchRes = .ok ⟨7, 11, 0, 3, .paid, 42⟩ ∧
     fetchStatus envCancelLoyaltyDown.delRes = .ok () ∧
     fetchStatus envCancelLoyaltyDown.delPay = .ok () ∧
     fetchStatus envCancelLoyaltyDown.delLoyalty = .error 503) ∧
    (delete_reservation envCancelLoyaltyDown 0 = .ok (204, some ⟨10⟩) ∧
     ∀ st rest, 1 ≤ (runWorker 10 (st :: rest)).length) :=
  ⟨⟨by decide, by decide, by decide, by decide⟩,
   cancel_loyalty_failure_deferred envCancelLoyaltyDown 0 ⟨7, 11, 0, 3, .paid, 42⟩
     503 (by decide) (by decide) (by decide) (by decide)⟩

/-- Counterexample to claim C8: the retry worker invokes a dequeued
action whose deadline is 10 at wall-clock time 15 — the first attempt
after dequeue is made without any deadline check. -/
theorem worker_attempt_after_deadline_cex :
    runWorker 10 [⟨15, false, 16⟩] = [15] ∧ (10 : Int) < 15 := by
  decide

/-- Claim C8 as amended: the worker's first attempt on a dequeued action
is unconditional; the deadline is only consulted after a failed attempt —
a further attempt is made only when that check read `now ≤ T`, and once a
check reads `now > T` the action is discarded with no further attempts. -/
theorem worker_deadline_checked_between_attempts (t : Int) (s : WorkerStep)
    (rest : List WorkerStep) :
    (1 < (runWorker t (s :: rest)).length →
      s.attemptOk = false ∧ s.checkTime ≤ t) ∧
    (s.attemptOk = false → t < s.checkTime →
      runWorker t (s :: rest) = [s.attemptTime]) := by
  constructor
  · intro hlen
    unfold runWorker at hlen
    by_cases hok : s.attemptOk = true
    · simp [hok] at hlen
    · by_cases hc : t < s.checkTime
      · simp [hok, hc] at hlen
      · exact ⟨by simpa using hok, by omega⟩
  · intro hok hc
    unfold runWorker
    simp [hok, hc]

/-- Witness for the amended C8: with deadline 10, a failed attempt at
time 1 whose check reads 5 allows a second attempt at time 2; a failed
attempt whose check reads 20 stops the run after the single attempt. -/
theorem worker_deadline_checked_between_attempts_witness :
    ((WorkerStep.mk 1 false 5).attemptOk = false ∧
      (WorkerStep.mk 1 false 5).checkTime ≤ 10) ∧
    runWorker 10 [⟨1, false, 20⟩] = [1] :=
  ⟨(worker_deadline_checked_between_attempts 10 ⟨1, false, 5⟩ [⟨2, true, 6⟩]).1
     (by decide),
   (worker_deadline_checked_between_attempts 10 ⟨1, false, 20⟩ []).2
     (by decide) (by decide)⟩

/-- Claim C7: for a list fetch that decodes to `items`, with per-item
payment enrichment keyed by each item's payment identifier, the request
succeeds and the aggregated response has exactly one entry per item in
the original list order; an entry whose enrichment failed has its payment
field omitted while every other entry has it populated. -/
theorem fanout_partial_enrichment (s : Nat) (items : List ReservationServiceResponse)
    (enrich : Nat → Fetch PaymentInfo) (k : Nat) (hk : k < items.length)
    (hfail : tryFromJson (enrich ((items.get ⟨k, hk⟩).paymentUid)) = none)
    (hok : ∀ j, (hj : j < items.length) → j ≠ k →
      (tryFromJson (enrich ((items.get ⟨j, hj⟩).paymentUid))).isSome = true) :
    ∃ out, get_reservations true (.up ⟨s, some items⟩) enrich = .ok out ∧
      out.length = items.length ∧
      (∀ j, (hj : j < out.length) → (hj2 : j < items.length) →
        (out.get ⟨j, hj⟩).reservationUid = (items.get ⟨j, hj2⟩).reservationUid) ∧
      (∀ hk2 : k < out.length, (out.get ⟨k, hk2⟩).payment = none) ∧
      (∀ j, (hj : j < out.length) → (hj2 : j < items.length) → j ≠ k →
        ((out.get ⟨j, hj⟩).payment).isSome = true) := by
  refine ⟨items.map (fun el => fromSvcResponses el (tryFromJson (enrich el.paymentUid))),
    ?_, by simp, ?_, ?_, ?_⟩
  · simp [get_reservations]
  · intro j hj hj2
    simp [fromSvcResponses]
  · intro hk2
    simp only [List.get_eq_getElem, List.getElem_map] at hfail ⊢
    simp [fromSvcResponses, hfail]
  · intro j hj hj2 hne
    have h := hok j hj2 hne
    simp only [List.get_eq_getElem, List.getElem_map] at h ⊢
    simp [fromSvcResponses, h]

/-- Three reservations whose payment identifiers are 4, 5 and 6. -/
def itemsThree : List ReservationServiceResponse :=
  [⟨1, 11, 0, 3, .paid, 4⟩, ⟨2, 11, 0, 3, .paid, 5⟩, ⟨3, 11, 0, 3, .paid, 6⟩]

/-- Enrichment world for the C7 witness: the payment lookup for
identifier 5 is unreachable, every other lookup succeeds. -/
def enrichOneDown : Nat → Fetch PaymentInfo := fun uid =>
  if uid = 5 then .down else .up ⟨200, some ⟨.paid, 100⟩⟩

/-- Witness for C7: three reservations, the middle enrichment fails, the
response still has three entries in order with only the middle payment
omitted. -/
theorem fanout_partial_enrichment_witness :
    (tryFromJson (enrichOneDown ((itemsThree.get ⟨1, by decide⟩).paymentUid)) = none ∧
     (∀ j, (hj : j < itemsThree.length) → j ≠ 1 →
       (tryFromJson (enrichOneDown ((itemsThree.get ⟨j, hj⟩).paymentUid))).isSome = true)) ∧
    (∃ out, get_reservations true (.up ⟨200, some itemsThree⟩) enrichOneDown = .ok out ∧
      out.length = itemsThree.length ∧
      (∀ j, (hj : j < out.length) → (hj2 : j < itemsThree.length) →
        (out.get ⟨j, hj⟩).reservationUid = (itemsThree.get ⟨j, hj2⟩).reservationUid) ∧
      (∀ hk2 : 1 < out.length, (out.get ⟨1, hk2⟩).payment = none) ∧
      (∀ j, (hj : j < out.length) → (hj2 : j < itemsThree.length) → j ≠ 1 →
        ((out.get ⟨j, hj⟩).payment).isSome = true)) :=
  ⟨⟨by decide, by decide⟩,
   fanout_partial_enrichment 200 itemsThree enrichOneDown 1 (by decide)
     (by decide) (by decide)⟩

/-- Claim C10: `get_reservation` performs no status check before decoding
the reservation service's body — an upstream response whose body fails to
decode yields 500 whatever its status (so a 404 is not propagated as
404), and an upstream response whose body does decode is treated as a
success even on an error status. -/
theorem get_reservation_no_status_check (s : Nat) (pf : Fetch PaymentInfo)
    (r : ReservationServiceResponse) :
    get_reservation true (.up ⟨s, none⟩) pf = .error 500 ∧
    get_reservation true (.up ⟨404, none⟩) pf ≠ .error 404 ∧
    (get_reservation true (.up ⟨s, some r⟩) pf).isOk = true := by
  refine ⟨rfl, ?_, rfl⟩
  intro h
  simp [get_reservation] at h
